import Mathlib

/-!
Verification development for the factiva-fetcher pipeline.

The Python modules under `src/` are shallowly embedded: Python dictionaries
become association lists over a JSON-like value type `JVal`, pure functions
become Lean functions, and effectful collaborator calls (feed pulls, the
model call, the notification and storage sinks) are passed in explicitly as
function arguments whose invocations and results are recorded in returned
traces.
-/

set_option autoImplicit false

namespace Factiva

/-- JSON-like values, the model of Python objects stored in dictionaries. -/
inductive JVal where
  | null
  | bool (b : Bool)
  | num (n : Int)
  | str (s : String)
  | arr (xs : List JVal)
  | obj (fs : List (String × JVal))

/-- Model of a Python dictionary with string keys. -/
abbrev PyDict := List (String × JVal)

/-- Dictionary lookup: `d[k]` as an `Option` (`none` = key absent). -/
def dget (d : PyDict) (k : String) : Option JVal :=
  match d with
  | [] => none
  | (k', v) :: rest => if k' = k then some v else dget rest k

/-- Python `d.get(k)`: absent keys give `None`. -/
def pyGet (d : PyDict) (k : String) : JVal :=
  (dget d k).getD JVal.null

/-- Python `d.get(k, default)`. -/
def pyGetD (d : PyDict) (k : String) (default : JVal) : JVal :=
  (dget d k).getD default

/-- Python truthiness of a value. -/
def JVal.truthy : JVal → Bool
  | .null => false
  | .bool b => b
  | .num n => n != 0
  | .str s => s != ""
  | .arr xs => !xs.isEmpty
  | .obj fs => !fs.isEmpty

/-- Python `a or b`: `a` if truthy, else `b`. -/
def pyOr (a b : JVal) : JVal :=
  if a.truthy then a else b

mutual

/-- Model of `json.dumps` on a `JVal` (comma and colon separators as in the
default Python encoder; string escaping is not modelled, no claim depends
on the exact escaping). -/
def jsonDumps : JVal → String
  | .null => "null"
  | .bool b => cond b "true" "false"
  | .num n => toString n
  | .str s => "\x22" ++ s ++ "\x22"
  | .arr xs => "[" ++ jsonDumpsArr xs ++ "]"
  | .obj fs => "\x7b" ++ jsonDumpsObj fs ++ "\x7d"

/-- Encodes the elements of a JSON array, comma-separated. -/
def jsonDumpsArr : List JVal → String
  | [] => ""
  | [v] => jsonDumps v
  | v :: vs => jsonDumps v ++ ", " ++ jsonDumpsArr vs

/-- Encodes the members of a JSON object, comma-separated. -/
def jsonDumpsObj : List (String × JVal) → String
  | [] => ""
  | [kv] => "\x22" ++ kv.1 ++ "\x22: " ++ jsonDumps kv.2
  | kv :: fs => "\x22" ++ kv.1 ++ "\x22: " ++ jsonDumps kv.2 ++ ", " ++ jsonDumpsObj fs

end

/-- `FactivaStreamer._process_document` (src/api/streamer.py): maps a raw
provider document onto the canonical shape, with `or`-fallback key variants
and the full original document kept under `raw_data`. -/
def process_document (document : PyDict) : PyDict :=
  [("id", pyOr (pyGet document "id") (pyGet document "documentId")),
   ("title", pyOr (pyGet document "title") (pyGet document "headline")),
   ("body", pyOr (pyGet document "body") (pyGet document "text")),
   ("publication_date", pyGet document "publicationDate"),
   ("source", pyOr (pyGet document "source") (pyGet document "publication")),
   ("metadata", .obj
     [("language", pyGet document "language"),
      ("subjects", pyGetD document "subjects" (.arr [])),
      ("companies", pyGetD document "companies" (.arr [])),
      ("regions", pyGetD document "regions" (.arr []))]),
   ("raw_data", .obj document)]

/-- Outcome of one `get_documents` pull inside `FactivaStreamer.stream`:
either the feed client raised, or it returned a batch of raw documents. -/
inductive PullResult where
  | failure
  | success (docs : List PyDict)

/-- Observable trace of a run of `FactivaStreamer.stream`
(src/api/streamer.py, the `while True` loop): the documents yielded, the
`time.sleep` durations performed before each retry, the number of
`get_documents` attempts, whether the loop terminated by re-raising after
exhausting `max_retries`, the value of `retry_count` when the observation
window ends, and the number of times the loop body itself invoked the
close operation (the source's loop body contains no such call). -/
structure StreamTrace where
  yielded : List PyDict
  sleeps : List Nat
  attempts : Nat
  exhausted : Bool
  retryCount : Nat
  closeCalls : Nat

/-- `FactivaStreamer.stream`, run against a finite oracle of pull outcomes:
each loop iteration consumes one `PullResult`. On success every document of
the batch is passed through `process_document` and yielded, then
`retry_count` is reset to `0`; on failure `retry_count` is incremented, the
loop re-raises once `retry_count > max_retries`, and otherwise sleeps
`5 * retry_count` before the next pull. -/
def streamRun (maxRetries : Nat) (rc : Nat) : List PullResult → StreamTrace
  | [] => ⟨[], [], 0, false, rc, 0⟩
  | .success ds :: rest =>
    let t := streamRun maxRetries 0 rest
    ⟨ds.map process_document ++ t.yielded, t.sleeps, t.attempts + 1,
      t.exhausted, t.retryCount, t.closeCalls⟩
  | .failure :: rest =>
    if rc + 1 > maxRetries then
      ⟨[], [], 1, true, rc + 1, 0⟩
    else
      let t := streamRun maxRetries (rc + 1) rest
      ⟨t.yielded, 5 * (rc + 1) :: t.sleeps, t.attempts + 1,
        t.exhausted, t.retryCount, t.closeCalls⟩

/-- Python's substring containment test `needle in hay`. -/
def strContains (hay needle : String) : Bool :=
  (List.range (hay.data.length + 1)).any fun i => needle.data.isPrefixOf (hay.data.drop i)

/-- Python `s.strip()`: drop leading and trailing whitespace. -/
def pyStrip (s : String) : String :=
  ⟨((s.data.dropWhile Char.isWhitespace).reverse.dropWhile Char.isWhitespace).reverse⟩

/-- Python `s.lower()`. -/
def pyLower (s : String) : String :=
  ⟨s.data.map Char.toLower⟩

/-- Python `s.startswith(pre)`. -/
def pyStartsWith (s pre : String) : Bool :=
  pre.data.isPrefixOf s.data

/-- Splits a character list at every occurrence of `sep`. -/
def splitChar (sep : Char) : List Char → List (List Char)
  | [] => [[]]
  | c :: rest =>
    match splitChar sep rest with
    | [] => [[]]
    | grp :: grps => if c = sep then [] :: grp :: grps else (c :: grp) :: grps

/-- Python `s.split("\n")`. -/
def splitLines (s : String) : List String :=
  (splitChar '\x0a' s.data).map fun cs => ⟨cs⟩

/-- Python `line.lstrip("- ")`: drop every leading `-` or space. -/
def lstripDashSpace (s : String) : String :=
  ⟨s.data.dropWhile fun c => c = '-' || c = ' '⟩

/-- Mutable locals of the parsing loop in `_analyze_with_openai`
(src/analysis/llm.py): the accumulating lists, the sentiment, the summary
buffer and `current_section`. -/
structure ParseState where
  topics : List String
  sentiment : String
  facts : List String
  relatedEntities : List String
  summary : String
  currentSection : Option String

/-- Initial parse state (`topics = []`, `sentiment = "neutral"`, ...). -/
def initState : ParseState :=
  ⟨[], "neutral", [], [], "", none⟩

/-- One iteration of the `for line in lines` loop of
`_analyze_with_openai`: strip the line, skip blanks, test the header
markers in source order (the sentiment header also decides `sentiment`
from the same line), and otherwise append bullet lines / summary text
according to `current_section`. -/
def parseLine (s : ParseState) (rawLine : String) : ParseState :=
  let line := pyStrip rawLine
  if line = "" then s
  else if strContains line "主要トピック" then
    { s with currentSection := some "topics" }
  else if strContains line "感情分析" then
    { s with currentSection := some "sentiment",
             sentiment :=
               if strContains (pyLower line) "ポジティブ" then "positive"
               else if strContains (pyLower line) "ネガティブ" then "negative"
               else "neutral" }
  else if strContains line "重要な事実" || strContains line "数字" then
    { s with currentSection := some "facts" }
  else if strContains line "関連する業界" || strContains line "企業" then
    { s with currentSection := some "entities" }
  else if strContains line "要約" then
    { s with currentSection := some "summary" }
  else if s.currentSection == some "topics" && pyStartsWith line "-" then
    { s with topics := s.topics ++ [lstripDashSpace line] }
  else if s.currentSection == some "facts" && pyStartsWith line "-" then
    { s with facts := s.facts ++ [lstripDashSpace line] }
  else if s.currentSection == some "entities" && pyStartsWith line "-" then
    { s with relatedEntities := s.relatedEntities ++ [lstripDashSpace line] }
  else if s.currentSection == some "summary" && !pyStartsWith line "#" then
    { s with summary := s.summary ++ line ++ " " }
  else s

/-- The extraction part of `_analyze_with_openai`: split the model text on
newlines, run the line loop, truncate topics to the first 3, strip the
summary, and build the result dictionary (including `raw_analysis`). -/
def extractFromText (analysisText : String) : PyDict :=
  let final := (splitLines analysisText).foldl parseLine initState
  [("topics", .arr ((final.topics.take 3).map .str)),
   ("sentiment", .str final.sentiment),
   ("facts", .arr (final.facts.map .str)),
   ("related_entities", .arr (final.relatedEntities.map .str)),
   ("summary", .str (pyStrip final.summary)),
   ("raw_analysis", .str analysisText)]

/-- Python `str()` display of a value as interpolated into an f-string
(claims only ever exercise this on strings). -/
def jdisp : JVal → String
  | .null => "None"
  | .bool b => cond b "True" "False"
  | .num n => toString n
  | .str s => s
  | v => jsonDumps v

/-- The f-string prompt template of `analyze_content`. -/
def buildPrompt (title source publicationDate body : String) : String :=
  "\n以下のニュース記事を分析し、以下の情報を抽出してください：\n" ++
  "1. 主要トピック（3つまで）\n" ++
  "2. 感情分析（ポジティブ/ニュートラル/ネガティブ）\n" ++
  "3. 重要な事実や数字\n" ++
  "4. 関連する業界や企業\n" ++
  "5. 記事の要約（100単語以内）\n\n" ++
  "記事タイトル: " ++ title ++ "\n" ++
  "出典: " ++ source ++ "\n" ++
  "日付: " ++ publicationDate ++ "\n\n" ++
  "記事本文:\n" ++ body ++ "\n"

/-- `_mock_analysis_result` (src/analysis/llm.py): the deterministic mock
analysis returned when no API key is configured; depends on the input only
through its `title`. -/
def mock_analysis_result (data : PyDict) : PyDict :=
  [("topics", .arr [.str "ビジネス", .str "テクノロジー", .str "経済"]),
   ("sentiment", .str "neutral"),
   ("facts", .arr
     [.str "これはモックの分析結果です",
      .str "実際のLLM分析を行うには、APIキーを設定してください"]),
   ("related_entities", .arr [.str "モック企業", .str "テスト産業"]),
   ("summary", .str ("これは「" ++ jdisp (pyGetD data "title" (.str "")) ++
     "」のモック要約です。実際のLLM分析を行うには、環境変数にAPIキーを設定してください。")),
   ("is_mock", .bool true)]

/-- `analyze_content` (src/analysis/llm.py). `hasKey` models
`"OPENAI_API_KEY" in os.environ`; `modelCall` is the
`openai.ChatCompletion.create` collaborator returning the completion text
or raising (`.error`, which `_analyze_with_openai` re-raises and the
enclosing `try` turns into the degraded error dictionary). Without a key
the model is never contacted and the mock result is returned. -/
def analyze_content (hasKey : Bool) (modelCall : String → Except String String)
    (data : PyDict) : PyDict :=
  let title := jdisp (pyGetD data "title" (.str ""))
  let body := jdisp (pyGetD data "body" (.str ""))
  let source := jdisp (pyGetD data "source" (.str ""))
  let publicationDate := jdisp (pyGetD data "publication_date" (.str ""))
  let prompt := buildPrompt title source publicationDate body
  if hasKey then
    match (modelCall prompt).map extractFromText with
    | .ok r => r
    | .error e =>
      [("error", .str e),
       ("topics", .arr []),
       ("sentiment", .str "neutral"),
       ("facts", .arr []),
       ("related_entities", .arr []),
       ("summary", .str ("分析エラー: " ++ title))]
  else
    mock_analysis_result data

/-- Observable outcome of `FactivaStreamer.close`: whether the call raised
out of `close` itself, and how many times the client's own close was
invoked. -/
structure CloseOutcome where
  raised : Bool
  clientCloseCalls : Nat

/-- `FactivaStreamer.close` (src/api/streamer.py): if the client has a
`close` attribute it is invoked once; any exception from it is caught and
logged, so `close` itself never raises. `clientClose` is the behaviour of
the underlying client's close call (`.error` = it raised). -/
def closeStreamer (hasClose : Bool) (clientClose : Except String Unit) : CloseOutcome :=
  if hasClose then
    match clientClose with
    | .ok _ => ⟨false, 1⟩
    | .error _ => ⟨false, 1⟩
  else ⟨false, 0⟩

/-- Collaborator invocations performed by `process_pubsub_message`, in
call order, each with its argument(s) and result. -/
inductive PipeEvent where
  | analyzed (input : JVal)
  | notified (payload : PyDict) (ok : Bool)
  | stored (article : JVal) (payload : PyDict) (ok : Bool)

/-- `process_pubsub_message` (src/functions/processor/main.py): take
`event.get("data")`, analyze it, send the notification, store the data,
and return the string `"OK"`. The collaborators are passed in
(`analyze_content`, `send_notification`, `store_data`); the second
component of the result records the calls made and their results — the
booleans returned by the sinks are not consulted by the function. -/
def process_pubsub_message (event : PyDict) (analyze : JVal → PyDict)
    (notify : PyDict → Bool) (store : JVal → PyDict → Bool) :
    String × List PipeEvent :=
  let msg := pyGet event "data"
  let a := analyze msg
  let n := notify a
  let s := store msg a
  ("OK", [.analyzed msg, .notified a n, .stored msg a s])

/-- The metadata selection of `_prepare_row` (src/storage/bigquery.py):
`metadata = article_data.get("metadata", {})`, replaced by
`article_data["raw_data"]` when it is falsy and a `raw_data` key exists. -/
def selectMetadata (article : PyDict) : JVal :=
  let m := pyGetD article "metadata" (.obj [])
  if !m.truthy && (dget article "raw_data").isSome then
    pyGet article "raw_data"
  else m

/-- `_prepare_row` (src/storage/bigquery.py): the flat row handed to the
BigQuery insert, in source field order; `now` stands for
`datetime.utcnow().isoformat()`. -/
def prepare_row (article analysisData : PyDict) (now : String) : PyDict :=
  [("id", pyGetD article "id" (.str "")),
   ("title", pyGetD article "title" (.str "")),
   ("body", pyGetD article "body" (.str "")),
   ("source", pyGetD article "source" (.str "")),
   ("publication_date", pyGetD article "publication_date" (.str "")),
   ("url", pyGetD article "url" (.str "")),
   ("topics", pyGetD analysisData "topics" (.arr [])),
   ("sentiment", pyGetD analysisData "sentiment" (.str "neutral")),
   ("summary", pyGetD analysisData "summary" (.str "")),
   ("facts", pyGetD analysisData "facts" (.arr [])),
   ("related_entities", pyGetD analysisData "related_entities" (.arr [])),
   ("metadata", .str (jsonDumps (selectMetadata article))),
   ("processed_at", .str now)]

/-! ## Theorems -/

/-- Helper: running the stream loop on `j` consecutive failures followed by
`rest`, while `retry_count + j` stays within `max_retries`, performs the
backoff sleeps `5*(rc+1), ..., 5*(rc+j)` and continues as from `rest` with
the retry counter advanced by `j`. -/
theorem streamRun_replicate_failure (n : Nat) (j : Nat) (rc : Nat)
    (rest : List PullResult) (h : rc + j ≤ n) :
    streamRun n rc (List.replicate j .failure ++ rest) =
      ⟨(streamRun n (rc + j) rest).yielded,
       (List.range j).map (fun i => 5 * (rc + i + 1)) ++ (streamRun n (rc + j) rest).sleeps,
       (streamRun n (rc + j) rest).attempts + j,
       (streamRun n (rc + j) rest).exhausted,
       (streamRun n (rc + j) rest).retryCount,
       (streamRun n (rc + j) rest).closeCalls⟩ := by
  induction j generalizing rc with
  | zero =>
    simp [List.replicate]
  | succ j ih =>
    have hne : ¬ (rc + 1 > n) := by omega
    have hrc : rc + 1 + j = rc + (j + 1) := by omega
    rw [List.replicate_succ, List.cons_append]
    simp only [streamRun, if_neg hne]
    rw [ih (rc + 1) (by omega), hrc]
    simp only [StreamTrace.mk.injEq]
    refine ⟨trivial, ?_, by omega, trivial, trivial, trivial⟩
    rw [List.range_succ_eq_map, List.map_cons, List.map_map, List.cons_append]
    refine congrArg₂ _ (by omega) (congrArg₂ _ ?_ rfl)
    refine List.map_congr_left fun i _ => ?_
    simp only [Function.comp]
    omega

/-- C1: with `max_retries = n`, `n+1` consecutive pull failures terminate
the stream by raising after exactly `n+1` attempts, having slept
`5*1, ..., 5*n` before the retries; `k ≤ n` consecutive failures followed
by one successful pull yield that batch's (normalized) documents, reset
the retry counter to `0`, do not exhaust the loop, and sleep
`5*1, ..., 5*k` (linear backoff). -/
theorem stream_retry_backoff (n k : Nat) (ds : List PyDict) (hk : k ≤ n) :
    ((streamRun n 0 (List.replicate (n + 1) .failure)).exhausted = true ∧
     (streamRun n 0 (List.replicate (n + 1) .failure)).attempts = n + 1 ∧
     (streamRun n 0 (List.replicate (n + 1) .failure)).sleeps =
       (List.range n).map (fun i => 5 * (i + 1))) ∧
    ((streamRun n 0 (List.replicate k .failure ++ [.success ds])).exhausted = false ∧
     (streamRun n 0 (List.replicate k .failure ++ [.success ds])).yielded =
       ds.map process_document ∧
     (streamRun n 0 (List.replicate k .failure ++ [.success ds])).retryCount = 0 ∧
     (streamRun n 0 (List.replicate k .failure ++ [.success ds])).sleeps =
       (List.range k).map (fun i => 5 * (i + 1))) := by
  constructor
  · have hsplit : List.replicate (n + 1) PullResult.failure =
        List.replicate n PullResult.failure ++ [PullResult.failure] :=
      List.replicate_succ' _ _
    rw [hsplit, streamRun_replicate_failure n n 0 [PullResult.failure] (by omega)]
    have hgt : 0 + n + 1 > n := by omega
    simp [streamRun, if_pos hgt]
    omega
  · rw [streamRun_replicate_failure n k 0 [PullResult.success ds] (by omega)]
    simp [streamRun]

/-- C1 witness: instantiated at `max_retries = 2`, `k = 2` failures then a
successful batch of one document. -/
theorem stream_retry_backoff_witness :
    (2 : Nat) ≤ 2 ∧
    (((streamRun 2 0 (List.replicate 3 .failure)).exhausted = true ∧
      (streamRun 2 0 (List.replicate 3 .failure)).attempts = 3 ∧
      (streamRun 2 0 (List.replicate 3 .failure)).sleeps =
        (List.range 2).map (fun i => 5 * (i + 1))) ∧
     ((streamRun 2 0 (List.replicate 2 .failure ++
         [.success [[("id", JVal.str "a")]]])).exhausted = false ∧
      (streamRun 2 0 (List.replicate 2 .failure ++
         [.success [[("id", JVal.str "a")]]])).yielded =
        [[("id", JVal.str "a")]].map process_document ∧
      (streamRun 2 0 (List.replicate 2 .failure ++
         [.success [[("id", JVal.str "a")]]])).retryCount = 0 ∧
      (streamRun 2 0 (List.replicate 2 .failure ++
         [.success [[("id", JVal.str "a")]]])).sleeps =
        (List.range 2).map (fun i => 5 * (i + 1)))) :=
  ⟨by omega, stream_retry_backoff 2 2 [[("id", JVal.str "a")]] (by omega)⟩

/-- C2 counterexample: on the raw document `{}` (title absent under both
accepted key variants), normalization stores `None` — not the empty
string — in the `title` field. -/
theorem process_document_missing_gives_null :
    dget (process_document []) "title" = some JVal.null ∧
    JVal.null ≠ JVal.str "" :=
  ⟨rfl, fun h => JVal.noConfusion h⟩

/-- C2 amended: for every raw document missing `title`/`body`/`source`
under all accepted key variants, normalization never raises (it is a total
function), stores Python `None` (null) — not the empty string — in those
fields, and preserves the original input exactly under `raw_data`. -/
theorem process_document_defaults (doc : PyDict)
    (ht : dget doc "title" = none) (hh : dget doc "headline" = none)
    (hb : dget doc "body" = none) (hx : dget doc "text" = none)
    (hs : dget doc "source" = none) (hp : dget doc "publication" = none) :
    dget (process_document doc) "title" = some JVal.null ∧
    dget (process_document doc) "body" = some JVal.null ∧
    dget (process_document doc) "source" = some JVal.null ∧
    dget (process_document doc) "raw_data" = some (JVal.obj doc) := by
  simp [process_document, dget, pyGet, pyOr, JVal.truthy, ht, hh, hb, hx, hs, hp]

/-- C2 witness: the amended statement at a concrete raw document carrying
only `id` and `publicationDate`. -/
theorem process_document_defaults_witness :
    dget [("id", JVal.str "d1"), ("publicationDate", JVal.str "2023-01-01")] "title" = none ∧
    (dget (process_document [("id", JVal.str "d1"), ("publicationDate", JVal.str "2023-01-01")]) "title" = some JVal.null ∧
     dget (process_document [("id", JVal.str "d1"), ("publicationDate", JVal.str "2023-01-01")]) "body" = some JVal.null ∧
     dget (process_document [("id", JVal.str "d1"), ("publicationDate", JVal.str "2023-01-01")]) "source" = some JVal.null ∧
     dget (process_document [("id", JVal.str "d1"), ("publicationDate", JVal.str "2023-01-01")]) "raw_data" =
       some (JVal.obj [("id", JVal.str "d1"), ("publicationDate", JVal.str "2023-01-01")])) :=
  ⟨rfl, process_document_defaults _ rfl rfl rfl rfl rfl rfl⟩

/-- C3: when the model call raises, `analyze_content` does not raise: it
returns a result whose `error` field carries the failure message, whose
`topics`, `facts` and `related_entities` lists are empty, and whose
sentiment is neutral. -/
theorem analyze_content_model_failure (data : PyDict)
    (mc : String → Except String String) (e : String)
    (hfail : ∀ p, mc p = .error e) :
    dget (analyze_content true mc data) "error" = some (JVal.str e) ∧
    dget (analyze_content true mc data) "topics" = some (JVal.arr []) ∧
    dget (analyze_content true mc data) "facts" = some (JVal.arr []) ∧
    dget (analyze_content true mc data) "related_entities" = some (JVal.arr []) ∧
    dget (analyze_content true mc data) "sentiment" = some (JVal.str "neutral") := by
  simp [analyze_content, hfail, Except.map, dget]

/-- C3 witness: a model call that always fails with `"boom"` on a document
titled `"T"`. -/
theorem analyze_content_model_failure_witness :
    (∀ p : String,
      (fun _ : String => (Except.error "boom" : Except String String)) p =
        Except.error "boom") ∧
    (dget (analyze_content true (fun _ : String => (Except.error "boom" : Except String String))
        [("title", JVal.str "T")]) "error" = some (JVal.str "boom") ∧
     dget (analyze_content true (fun _ : String => (Except.error "boom" : Except String String))
        [("title", JVal.str "T")]) "topics" = some (JVal.arr []) ∧
     dget (analyze_content true (fun _ : String => (Except.error "boom" : Except String String))
        [("title", JVal.str "T")]) "facts" = some (JVal.arr []) ∧
     dget (analyze_content true (fun _ : String => (Except.error "boom" : Except String String))
        [("title", JVal.str "T")]) "related_entities" = some (JVal.arr []) ∧
     dget (analyze_content true (fun _ : String => (Except.error "boom" : Except String String))
        [("title", JVal.str "T")]) "sentiment" = some (JVal.str "neutral")) :=
  ⟨fun _ => rfl,
   analyze_content_model_failure [("title", JVal.str "T")] _ "boom" fun _ => rfl⟩

/-- C5: with no model credential configured, `analyze_content` returns the
deterministic mock analysis (`is_mock = true`, neutral sentiment) and never
consults the model: the result is the same for every model collaborator,
i.e. a fixed function of the input document alone. -/
theorem analyze_content_no_key (data : PyDict)
    (mc mc' : String → Except String String) :
    analyze_content false mc data = mock_analysis_result data ∧
    analyze_content false mc data = analyze_content false mc' data ∧
    dget (analyze_content false mc data) "is_mock" = some (JVal.bool true) ∧
    dget (analyze_content false mc data) "sentiment" = some (JVal.str "neutral") :=
  ⟨rfl, rfl, rfl, rfl⟩

/-- C7: on a line matched as a sentiment header (and not as a topics
header, which is tested first), the sentiment is decided from that same
line: positive if the positive keyword occurs (even when the negative
keyword also occurs), else negative if the negative keyword occurs, else
neutral. -/
theorem parseLine_sentiment (s : ParseState) (rl : String)
    (hne : pyStrip rl ≠ "")
    (hnt : strContains (pyStrip rl) "主要トピック" = false)
    (hsent : strContains (pyStrip rl) "感情分析" = true) :
    (strContains (pyLower (pyStrip rl)) "ポジティブ" = true →
      (parseLine s rl).sentiment = "positive") ∧
    (strContains (pyLower (pyStrip rl)) "ポジティブ" = false →
      strContains (pyLower (pyStrip rl)) "ネガティブ" = true →
      (parseLine s rl).sentiment = "negative") ∧
    (strContains (pyLower (pyStrip rl)) "ポジティブ" = false →
      strContains (pyLower (pyStrip rl)) "ネガティブ" = false →
      (parseLine s rl).sentiment = "neutral") := by
  have hstep : parseLine s rl =
      { s with currentSection := some "sentiment",
               sentiment :=
                 if strContains (pyLower (pyStrip rl)) "ポジティブ" then "positive"
                 else if strContains (pyLower (pyStrip rl)) "ネガティブ" then "negative"
                 else "neutral" } := by
    unfold parseLine
    rw [if_neg hne, if_neg (by simp [hnt]), if_pos (by simp [hsent])]
  refine ⟨fun hp => ?_, fun hp hn => ?_, fun hp hn => ?_⟩ <;>
    rw [hstep] <;> simp [hp]
  · simp [hn]
  · simp [hn]

/-- C7 witness: a sentiment-header line containing both polarity keywords
yields positive. -/
theorem parseLine_sentiment_witness :
    (pyStrip "感情分析: ポジティブとネガティブ" ≠ "" ∧
     strContains (pyStrip "感情分析: ポジティブとネガティブ") "主要トピック" = false ∧
     strContains (pyStrip "感情分析: ポジティブとネガティブ") "感情分析" = true ∧
     strContains (pyLower (pyStrip "感情分析: ポジティブとネガティブ")) "ポジティブ" = true) ∧
    (parseLine initState "感情分析: ポジティブとネガティブ").sentiment = "positive" :=
  ⟨⟨by decide, by decide, by decide, by decide⟩,
   (parseLine_sentiment initState "感情分析: ポジティブとネガティブ"
      (by decide) (by decide) (by decide)).1 (by decide)⟩

/-- C8: a non-header bullet line is appended, with its bullet marker
stripped, to the list of the current section (topics / facts / entities),
leaving the other lists unchanged; and the topics list of the returned
analysis has at most 3 entries for every input text. -/
theorem parseLine_bullets_topics_cap (s : ParseState) (rl text : String)
    (hne : pyStrip rl ≠ "")
    (h1 : strContains (pyStrip rl) "主要トピック" = false)
    (h2 : strContains (pyStrip rl) "感情分析" = false)
    (h3 : strContains (pyStrip rl) "重要な事実" = false)
    (h4 : strContains (pyStrip rl) "数字" = false)
    (h5 : strContains (pyStrip rl) "関連する業界" = false)
    (h6 : strContains (pyStrip rl) "企業" = false)
    (h7 : strContains (pyStrip rl) "要約" = false)
    (hb : pyStartsWith (pyStrip rl) "-" = true) :
    (s.currentSection = some "topics" →
      (parseLine s rl).topics = s.topics ++ [lstripDashSpace (pyStrip rl)] ∧
      (parseLine s rl).facts = s.facts ∧
      (parseLine s rl).relatedEntities = s.relatedEntities) ∧
    (s.currentSection = some "facts" →
      (parseLine s rl).facts = s.facts ++ [lstripDashSpace (pyStrip rl)] ∧
      (parseLine s rl).topics = s.topics ∧
      (parseLine s rl).relatedEntities = s.relatedEntities) ∧
    (s.currentSection = some "entities" →
      (parseLine s rl).relatedEntities = s.relatedEntities ++ [lstripDashSpace (pyStrip rl)] ∧
      (parseLine s rl).topics = s.topics ∧
      (parseLine s rl).facts = s.facts) ∧
    (∃ ts, dget (extractFromText text) "topics" = some (JVal.arr ts) ∧
      ts.length ≤ 3) := by
  refine ⟨fun hs => ?_, fun hs => ?_, fun hs => ?_, ?_⟩
  · unfold parseLine
    rw [if_neg hne, if_neg (by simp [h1]), if_neg (by simp [h2]),
      if_neg (by simp [h3, h4]), if_neg (by simp [h5, h6]), if_neg (by simp [h7]),
      if_pos (by simp [hs, hb])]
    exact ⟨rfl, rfl, rfl⟩
  · unfold parseLine
    rw [if_neg hne, if_neg (by simp [h1]), if_neg (by simp [h2]),
      if_neg (by simp [h3, h4]), if_neg (by simp [h5, h6]), if_neg (by simp [h7]),
      if_neg (by simp [hs]), if_pos (by simp [hs, hb])]
    exact ⟨rfl, rfl, rfl⟩
  · unfold parseLine
    rw [if_neg hne, if_neg (by simp [h1]), if_neg (by simp [h2]),
      if_neg (by simp [h3, h4]), if_neg (by simp [h5, h6]), if_neg (by simp [h7]),
      if_neg (by simp [hs]), if_neg (by simp [hs]), if_pos (by simp [hs, hb])]
    exact ⟨rfl, rfl, rfl⟩
  · refine ⟨((((splitLines text).foldl parseLine initState).topics.take 3).map JVal.str),
      rfl, ?_⟩
    rw [List.length_map, List.length_take]
    exact Nat.min_le_left _ _

/-- C8 witness: a bullet line under the topics section is appended with
its marker stripped, and the topics of an extracted analysis number at
most 3. -/
theorem parseLine_bullets_topics_cap_witness :
    (pyStrip "- トピックA" ≠ "" ∧ pyStartsWith (pyStrip "- トピックA") "-" = true) ∧
    ((parseLine ⟨[], "neutral", [], [], "", some "topics"⟩ "- トピックA").topics =
       (⟨[], "neutral", [], [], "", some "topics"⟩ : ParseState).topics ++
         [lstripDashSpace (pyStrip "- トピックA")] ∧
     (parseLine ⟨[], "neutral", [], [], "", some "topics"⟩ "- トピックA").facts =
       (⟨[], "neutral", [], [], "", some "topics"⟩ : ParseState).facts ∧
     (parseLine ⟨[], "neutral", [], [], "", some "topics"⟩ "- トピックA").relatedEntities =
       (⟨[], "neutral", [], [], "", some "topics"⟩ : ParseState).relatedEntities) ∧
    (∃ ts, dget (extractFromText "x") "topics" = some (JVal.arr ts) ∧
      ts.length ≤ 3) :=
  ⟨⟨by decide, by decide⟩,
   (parseLine_bullets_topics_cap ⟨[], "neutral", [], [], "", some "topics"⟩
      "- トピックA" "x" (by decide) (by decide) (by decide) (by decide) (by decide)
      (by decide) (by decide) (by decide) (by decide)).1 rfl,
   (parseLine_bullets_topics_cap ⟨[], "neutral", [], [], "", some "topics"⟩
      "- トピックA" "x" (by decide) (by decide) (by decide) (by decide) (by decide)
      (by decide) (by decide) (by decide) (by decide)).2.2.2⟩

/-- C4 counterexample: in the notify-fails / store-succeeds scenario the
function returns the constant `"OK"`, identical to what it returns when
the sink outcomes are reversed — the returned outcome does not report
`notifySucceeded` / `storeSucceeded`. -/
theorem process_outcome_not_reported :
    (process_pubsub_message [("data", JVal.obj [("id", JVal.str "d1")])]
        (fun _ => [("summary", JVal.str "s")]) (fun _ => false) (fun _ _ => true)).1 = "OK" ∧
    (process_pubsub_message [("data", JVal.obj [("id", JVal.str "d1")])]
        (fun _ => [("summary", JVal.str "s")]) (fun _ => false) (fun _ _ => true)).1 =
      (process_pubsub_message [("data", JVal.obj [("id", JVal.str "d1")])]
        (fun _ => [("summary", JVal.str "s")]) (fun _ => true) (fun _ _ => false)).1 :=
  ⟨rfl, rfl⟩

/-- C4 amended: storage is always attempted regardless of the notification
outcome — when the notifier returns `false` and the store returns `true`,
the function completes without any exception, invokes analysis, then the
notifier (recording `false`), then the store (recording `true`), and
returns `"OK"`; the sink booleans are discarded rather than reported. -/
theorem process_attempts_store (event : PyDict) (analyze : JVal → PyDict)
    (notify : PyDict → Bool) (store : JVal → PyDict → Bool)
    (hn : notify (analyze (pyGet event "data")) = false)
    (hs : store (pyGet event "data") (analyze (pyGet event "data")) = true) :
    (process_pubsub_message event analyze notify store).1 = "OK" ∧
    (process_pubsub_message event analyze notify store).2 =
      [.analyzed (pyGet event "data"),
       .notified (analyze (pyGet event "data")) false,
       .stored (pyGet event "data") (analyze (pyGet event "data")) true] := by
  refine ⟨rfl, ?_⟩
  simp [process_pubsub_message, hn, hs]

/-- C4 witness: the amended statement at a concrete event with a failing
notifier and a succeeding store. -/
theorem process_attempts_store_witness :
    ((fun _ : PyDict => false)
        ((fun _ : JVal => [("summary", JVal.str "s")]) (pyGet [("data", JVal.obj [("id", JVal.str "d1")])] "data")) = false ∧
     (fun _ : JVal => fun _ : PyDict => true)
        (pyGet [("data", JVal.obj [("id", JVal.str "d1")])] "data")
        ((fun _ : JVal => [("summary", JVal.str "s")]) (pyGet [("data", JVal.obj [("id", JVal.str "d1")])] "data")) = true) ∧
    ((process_pubsub_message [("data", JVal.obj [("id", JVal.str "d1")])]
        (fun _ : JVal => [("summary", JVal.str "s")]) (fun _ : PyDict => false)
        (fun _ : JVal => fun _ : PyDict => true)).1 = "OK" ∧
     (process_pubsub_message [("data", JVal.obj [("id", JVal.str "d1")])]
        (fun _ : JVal => [("summary", JVal.str "s")]) (fun _ : PyDict => false)
        (fun _ : JVal => fun _ : PyDict => true)).2 =
       [.analyzed (pyGet [("data", JVal.obj [("id", JVal.str "d1")])] "data"),
        .notified ((fun _ : JVal => [("summary", JVal.str "s")]) (pyGet [("data", JVal.obj [("id", JVal.str "d1")])] "data")) false,
        .stored (pyGet [("data", JVal.obj [("id", JVal.str "d1")])] "data")
          ((fun _ : JVal => [("summary", JVal.str "s")]) (pyGet [("data", JVal.obj [("id", JVal.str "d1")])] "data")) true]) :=
  ⟨⟨rfl, rfl⟩,
   process_attempts_store [("data", JVal.obj [("id", JVal.str "d1")])]
     (fun _ => [("summary", JVal.str "s")]) (fun _ => false) (fun _ _ => true) rfl rfl⟩

/-- C6: the row handed to the storage sink has exactly the fields
`id, title, body, source, publication_date, url, topics, sentiment,
summary, facts, related_entities, metadata, processed_at` in that order
and no others, with `metadata` a JSON-encoded string and `processed_at`
the processing timestamp. -/
theorem prepare_row_shape (article analysisData : PyDict) (now : String) :
    (prepare_row article analysisData now).map Prod.fst =
      ["id", "title", "body", "source", "publication_date", "url", "topics",
       "sentiment", "summary", "facts", "related_entities", "metadata",
       "processed_at"] ∧
    dget (prepare_row article analysisData now) "metadata" =
      some (JVal.str (jsonDumps (selectMetadata article))) ∧
    dget (prepare_row article analysisData now) "processed_at" =
      some (JVal.str now) :=
  ⟨rfl, rfl, rfl⟩

/-- C9 counterexample: a stream run that exits through retry exhaustion
(`max_retries = 0`, one failed pull) performs zero close operations — the
loop itself does not release the connection on that exit path. -/
theorem stream_exit_without_close :
    (streamRun 0 0 [.failure]).exhausted = true ∧
    (streamRun 0 0 [.failure]).closeCalls = 0 :=
  ⟨rfl, rfl⟩

/-- C9 amended: the stream loop itself never invokes close (release is the
caller's responsibility), while `close` never raises — any error from the
underlying client close is caught — so calling `close` a second time, for
any behaviour of the client on either call, produces no error in the loop. -/
theorem close_idempotent_stream_no_close (h₁ h₂ : Bool)
    (c₁ c₂ : Except String Unit) (n rc : Nat) (pulls : List PullResult) :
    (closeStreamer h₁ c₁).raised = false ∧
    (closeStreamer h₂ c₂).raised = false ∧
    (streamRun n rc pulls).closeCalls = 0 := by
  refine ⟨?_, ?_, ?_⟩
  · cases h₁ <;> cases c₁ <;> rfl
  · cases h₂ <;> cases c₂ <;> rfl
  · induction pulls generalizing rc with
    | nil => rfl
    | cons p rest ih =>
      cases p with
      | success ds => simp [streamRun, ih]
      | failure =>
        by_cases hc : rc + 1 > n
        · simp [streamRun, hc]
        · simp [streamRun, hc, ih]

/-- C10 (implicit): when the article carries no truthy `metadata` but has
a `raw_data` key, the stored row's `metadata` column is the JSON encoding
of the full raw provider document. -/
theorem prepare_row_raw_metadata (article analysisData : PyDict)
    (now : String) (raw : JVal)
    (hm : (pyGetD article "metadata" (JVal.obj [])).truthy = false)
    (hr : dget article "raw_data" = some raw) :
    dget (prepare_row article analysisData now) "metadata" =
      some (JVal.str (jsonDumps raw)) := by
  have hsel : selectMetadata article = raw := by
    simp [selectMetadata, hm, hr, pyGet]
  calc dget (prepare_row article analysisData now) "metadata"
      = some (JVal.str (jsonDumps (selectMetadata article))) := rfl
    _ = some (JVal.str (jsonDumps raw)) := by rw [hsel]

/-- C10 witness: an article holding only `raw_data`. -/
theorem prepare_row_raw_metadata_witness :
    ((pyGetD [("raw_data", JVal.obj [("id", JVal.str "a")])] "metadata"
        (JVal.obj [])).truthy = false ∧
     dget [("raw_data", JVal.obj [("id", JVal.str "a")])] "raw_data" =
       some (JVal.obj [("id", JVal.str "a")])) ∧
    dget (prepare_row [("raw_data", JVal.obj [("id", JVal.str "a")])] [] "t")
        "metadata" =
      some (JVal.str (jsonDumps (JVal.obj [("id", JVal.str "a")]))) :=
  ⟨⟨rfl, rfl⟩,
   prepare_row_raw_metadata [("raw_data", JVal.obj [("id", JVal.str "a")])] [] "t"
     (JVal.obj [("id", JVal.str "a")]) rfl rfl⟩

end Factiva
